import Mathlib

/-!
Shallow embedding of the realtime fan-out client layer of StatusTrack:
the typed data model of frontend/src/types, the socket event reducers of
PublicStatusPageClient.tsx, the useWebSocket hook wiring, and the status
badge lookup of PublicStatusClientPage.tsx.
-/

namespace StatusTrack

/-- ServiceStatus enum of frontend/src/types: the display-string status
values that align with the backend. -/
inductive ServiceStatus where
  | OPERATIONAL
  | DEGRADED_PERFORMANCE
  | PARTIAL_OUTAGE
  | MAJOR_OUTAGE
  | UNDER_MAINTENANCE
  | MINOR_OUTAGE
  deriving DecidableEq, Repr

/-- The display string each ServiceStatus enum member carries in the
TypeScript source. -/
def ServiceStatus.display : ServiceStatus → String
  | .OPERATIONAL => "Operational"
  | .DEGRADED_PERFORMANCE => "Degraded Performance"
  | .PARTIAL_OUTAGE => "Partial Outage"
  | .MAJOR_OUTAGE => "Major Outage"
  | .UNDER_MAINTENANCE => "Under Maintenance"
  | .MINOR_OUTAGE => "Minor Outage"

/-- One historical record of a service status change. -/
structure ServiceStatusHistory where
  id : String
  old_status : ServiceStatus
  new_status : ServiceStatus
  timestamp : String
  deriving DecidableEq, Repr

/-- A service, mirroring the backend Service model (frontend/src/types). -/
structure Service where
  id : String
  name : String
  description : String
  status : ServiceStatus
  organization_id : String
  status_history : List ServiceStatusHistory
  tags : List String
  created_at : Option String
  updated_at : Option String
  deriving DecidableEq, Repr

/-- A member entry of an organization. -/
structure OrgMember where
  user_id : String
  role : String
  deriving DecidableEq, Repr

/-- An organization, mirroring the backend Organization model. -/
structure Organization where
  id : String
  name : String
  description : String
  slug : String
  owner_id : String
  members : List OrgMember
  created_at : Option String
  updated_at : Option String
  deriving DecidableEq, Repr

/-- IncidentStatusEnum of frontend/src/types. -/
inductive IncidentStatusEnum where
  | INVESTIGATING
  | IDENTIFIED
  | MONITORING
  | RESOLVED
  | SCHEDULED
  deriving DecidableEq, Repr

/-- IncidentSeverityEnum of frontend/src/types. -/
inductive IncidentSeverityEnum where
  | CRITICAL
  | MAJOR
  | MINOR
  deriving DecidableEq, Repr

/-- One update within an incident. -/
structure IncidentUpdate where
  id : Option String
  message : String
  timestamp : String
  deriving DecidableEq, Repr

/-- An incident, mirroring the backend Incident model. -/
structure Incident where
  id : String
  title : String
  severity : IncidentSeverityEnum
  status : IncidentStatusEnum
  organization_id : String
  affected_services : List String
  updates : List IncidentUpdate
  created_at : String
  updated_at : String
  resolved_at : Option String
  deriving DecidableEq, Repr

/-- The client view state of PublicStatusPageClient.tsx: organization,
services list, incidents list (interface PublicStatusData). -/
structure PublicStatusData where
  organization : Organization
  services : List Service
  incidents : List Incident
  deriving DecidableEq, Repr

/-- Payload of the service_update socket event (interface
ServiceUpdateData in PublicStatusPageClient.tsx). -/
structure ServiceUpdateData where
  service_id : String
  status : ServiceStatus
  deriving DecidableEq, Repr

/-- Payload of the incident_update socket event (interface
IncidentUpdateData in PublicStatusPageClient.tsx). -/
structure IncidentUpdateData where
  incident_id : String
  status : IncidentStatusEnum
  updates : List IncidentUpdate
  deriving DecidableEq, Repr

/-- Payload of the incident_new socket event (interface NewIncidentData
in PublicStatusPageClient.tsx). -/
structure NewIncidentData where
  incident : Incident
  deriving DecidableEq, Repr

/-- The per-service function inside the service_update handler of
PublicStatusPageClient.tsx: a service whose id equals the update id gets
the update status spread over it, any other service is returned as is. -/
def updateServiceStatus (u : ServiceUpdateData) (s : Service) : Service :=
  if s.id = u.service_id then { s with status := u.status } else s

/-- The service_update handler of PublicStatusPageClient.tsx: maps
updateServiceStatus over the services list, keeping the rest of the
state. -/
def applyServiceUpdate (u : ServiceUpdateData) (prev : PublicStatusData) : PublicStatusData :=
  { prev with services := prev.services.map (updateServiceStatus u) }

/-- The per-incident function inside the incident_update handler of
PublicStatusPageClient.tsx: an incident whose id equals the update id
gets the update status and updates array spread over it. -/
def updateIncident (u : IncidentUpdateData) (i : Incident) : Incident :=
  if i.id = u.incident_id then { i with status := u.status, updates := u.updates } else i

/-- The incident_update handler of PublicStatusPageClient.tsx: maps
updateIncident over the incidents list, keeping the rest of the state. -/
def applyIncidentUpdate (u : IncidentUpdateData) (prev : PublicStatusData) : PublicStatusData :=
  { prev with incidents := prev.incidents.map (updateIncident u) }

/-- The incident_new handler of PublicStatusPageClient.tsx: prepends the
new incident to the incidents list, keeping the rest of the state. -/
def applyIncidentNew (n : NewIncidentData) (prev : PublicStatusData) : PublicStatusData :=
  { prev with incidents := n.incident :: prev.incidents }

/-- The socket event variants relevant to the consumer: the three
variants PublicStatusPageClient.tsx registers handlers for, plus the
incident_deleted variant the server emits but for which that component
registers no handler. -/
inductive SocketEvent where
  | serviceUpdate : ServiceUpdateData → SocketEvent
  | incidentUpdate : IncidentUpdateData → SocketEvent
  | incidentNew : NewIncidentData → SocketEvent
  | incidentDeleted : String → SocketEvent

/-- The event consumer of PublicStatusPageClient.tsx as one function:
dispatch on the event variant to the registered handler; a variant with
no registered handler leaves the state unchanged (socket.io fires no
callback for it). -/
def applyEvent : SocketEvent → PublicStatusData → PublicStatusData
  | .serviceUpdate u, prev => applyServiceUpdate u prev
  | .incidentUpdate u, prev => applyIncidentUpdate u prev
  | .incidentNew n, prev => applyIncidentNew n prev
  | .incidentDeleted _, prev => prev

/-- The event names the useWebSocket hook registers listeners for
(socket.on calls in the hook body). -/
def useWebSocketRegisteredEvents : List String :=
  ["incident_created", "incident_updated", "incident_deleted", "service_updated"]

/-- The reconnectionAttempts option the useWebSocket hook passes to io:
the bounded retry budget of the transport. -/
def reconnectionAttempts : Nat := 5

/-- One socket.emit call: the event name and the single field of its
payload object, as both connect handlers in the source emit exactly one
one-field object. -/
structure EmitCall where
  event : String
  payloadField : String
  payloadValue : String
  deriving DecidableEq, Repr

/-- The messages the useWebSocket hook emits upon transport connect: with
a null organizationId the effect returns before creating a socket, so
nothing is emitted; otherwise the connect handler emits one join_room
message whose room field is the organizationId. -/
def useWebSocketEmitsOnConnect : Option String → List EmitCall
  | none => []
  | some oid => [⟨"join_room", "room", oid⟩]

/-- The messages the PublicStatusPageClient.tsx connect handler emits
upon transport connect: one subscribe message carrying the
organizationSlug. -/
def publicStatusPageClientEmitsOnConnect (organizationSlug : String) : List EmitCall :=
  [⟨"subscribe", "organizationSlug", organizationSlug⟩]

/-- Modelled from the spec: the component that consumes the lastMessage
record of the useWebSocket hook is not among the repository files under
src (the hook only stores the event for "the component's handler"). The
spec says for incident_deleted: remove the matching incident by id. -/
def applyIncidentDeleted (incident_id : String) (prev : PublicStatusData) : PublicStatusData :=
  { prev with incidents := prev.incidents.filter (fun i => i.id != incident_id) }

/-- The client connection as seen by the useWebSocket hook: the
isConnected flag it exposes to the UI, the remaining retry budget, and
whether the transport engine has given up retrying. -/
structure ClientConn where
  isConnected : Bool
  attemptsLeft : Nat
  gaveUp : Bool
  deriving DecidableEq, Repr

/-- Modelled from the spec: the reconnection engine itself lives in the
socket.io client library, not in the repository files; the repository
contributes the reconnectionAttempts budget and the handlers that set
isConnected. Spec: after a transport loss the client retries with
bounded attempts and back-off; a failed attempt consumes budget; once
the budget is exhausted the engine stops and the disconnected state is
surfaced and kept. -/
inductive ConnStep : ClientConn → ClientConn → Prop where
  | transportLoss (c : ClientConn) (h : c.isConnected = true) :
      ConnStep c ⟨false, reconnectionAttempts, false⟩
  | retrySuccess (c : ClientConn) (h1 : c.isConnected = false) (h2 : c.gaveUp = false)
      (h3 : 0 < c.attemptsLeft) :
      ConnStep c ⟨true, reconnectionAttempts, false⟩
  | retryFailure (c : ClientConn) (h1 : c.isConnected = false) (h2 : c.gaveUp = false)
      (h3 : 0 < c.attemptsLeft) :
      ConnStep c ⟨false, c.attemptsLeft - 1, decide (c.attemptsLeft - 1 = 0)⟩

/-- Modelled from the spec: exponential back-off of the retry delay; the
delay before the attempt that comes after k failures doubles with each
failure. -/
def backoffDelay (k : Nat) : Nat := 1000 * 2 ^ k

/-- One entry of the statusStyles map of PublicStatusClientPage.tsx. -/
structure StatusStyle where
  color : String
  text : String
  deriving DecidableEq, Repr

/-- The statusStyles object of PublicStatusClientPage.tsx, as the
association list of its five keys. -/
def statusStyles : List (String × StatusStyle) :=
  [("OPERATIONAL", ⟨"bg-green-500", "Operational"⟩),
   ("DEGRADED_PERFORMANCE", ⟨"bg-yellow-500", "Degraded Performance"⟩),
   ("PARTIAL_OUTAGE", ⟨"bg-orange-500", "Partial Outage"⟩),
   ("MAJOR_OUTAGE", ⟨"bg-red-500", "Major Outage"⟩),
   ("MAINTENANCE", ⟨"bg-blue-500", "Under Maintenance"⟩)]

/-- The fallback badge of PublicStatusClientPage.tsx. -/
def unknownStatusStyle : StatusStyle := ⟨"bg-gray-500", "Unknown"⟩

/-- The badge lookup in the service list rendering of
PublicStatusClientPage.tsx: statusStyles indexed by the status string,
falling back to the gray Unknown badge when the key is absent. -/
def lookupStatusStyle (status : String) : StatusStyle :=
  (statusStyles.lookup status).getD unknownStatusStyle

/-- A concrete organization for counterexamples. -/
def sampleOrg : Organization :=
  ⟨"org1", "Acme", "acme org", "acme", "owner1", [], none, none⟩

/-- A concrete service for counterexamples. -/
def sampleService : Service :=
  ⟨"svc1", "API", "api service", ServiceStatus.OPERATIONAL, "org1", [], [], none, none⟩

/-- A concrete incident for counterexamples. -/
def sampleIncident : Incident :=
  ⟨"inc1", "API outage", IncidentSeverityEnum.MAJOR, IncidentStatusEnum.INVESTIGATING,
   "org1", ["svc1"], [], "2024-01-01T00:00:00Z", "2024-01-01T00:00:00Z", none⟩

/-- A concrete client view state for counterexamples. -/
def sampleState : PublicStatusData := ⟨sampleOrg, [sampleService], []⟩

lemma updateServiceStatus_of_ne (u : ServiceUpdateData) (s : Service)
    (h : s.id ≠ u.service_id) : updateServiceStatus u s = s := by
  simp [updateServiceStatus, h]

lemma map_updateServiceStatus_of_absent (u : ServiceUpdateData) :
    ∀ (l : List Service), (∀ s ∈ l, s.id ≠ u.service_id) →
      l.map (updateServiceStatus u) = l := by
  intro l hl
  induction l with
  | nil => rfl
  | cons a t ih =>
      simp only [List.map_cons]
      rw [updateServiceStatus_of_ne u a (hl a (List.mem_cons_self a t)),
        ih (fun s hs => hl s (List.mem_cons_of_mem a hs))]

lemma applyServiceUpdate_of_absent (u : ServiceUpdateData) (st : PublicStatusData)
    (h : ∀ s ∈ st.services, s.id ≠ u.service_id) : applyServiceUpdate u st = st := by
  unfold applyServiceUpdate
  rw [map_updateServiceStatus_of_absent u st.services h]

/-- C1: the service_update handler replaces exactly the status field of the
service whose id matches the event, leaves every other field of that
service, every other service, the organization and the incidents list
unchanged, and is a no-op when no service carries the event id. -/
theorem service_update_replaces_matching_status :
  ∀ (u : ServiceUpdateData) (st : PublicStatusData),
    (applyServiceUpdate u st).organization = st.organization ∧
    (applyServiceUpdate u st).incidents = st.incidents ∧
    (∀ i : Nat, (applyServiceUpdate u st).services[i]?
        = (st.services[i]?).map (updateServiceStatus u)) ∧
    (∀ s : Service,
        (updateServiceStatus u s).id = s.id ∧
        (updateServiceStatus u s).name = s.name ∧
        (updateServiceStatus u s).description = s.description ∧
        (updateServiceStatus u s).organization_id = s.organization_id ∧
        (updateServiceStatus u s).status_history = s.status_history ∧
        (updateServiceStatus u s).tags = s.tags ∧
        (updateServiceStatus u s).created_at = s.created_at ∧
        (updateServiceStatus u s).updated_at = s.updated_at ∧
        (updateServiceStatus u s).status
          = (if s.id = u.service_id then u.status else s.status)) ∧
    ((∀ s ∈ st.services, s.id ≠ u.service_id) → applyServiceUpdate u st = st) := by
  intro u st
  refine ⟨rfl, rfl, ?_, ?_, applyServiceUpdate_of_absent u st⟩
  · intro i
    simp [applyServiceUpdate, List.getElem?_map]
  · intro s
    by_cases h : s.id = u.service_id <;> simp [updateServiceStatus, h]

/-- C3: the incident_new handler prepends the new incident to the
incidents list, with the previous incidents as the unchanged tail and
the services and organization untouched. -/
theorem incident_new_prepends :
  ∀ (n : NewIncidentData) (st : PublicStatusData),
    (applyIncidentNew n st).incidents = n.incident :: st.incidents ∧
    (applyIncidentNew n st).services = st.services ∧
    (applyIncidentNew n st).organization = st.organization := by
  intro n st
  exact ⟨rfl, rfl, rfl⟩

lemma updateIncident_of_ne (u : IncidentUpdateData) (i : Incident)
    (h : i.id ≠ u.incident_id) : updateIncident u i = i := by
  simp [updateIncident, h]

lemma map_updateIncident_of_absent (u : IncidentUpdateData) :
    ∀ (l : List Incident), (∀ i ∈ l, i.id ≠ u.incident_id) →
      l.map (updateIncident u) = l := by
  intro l hl
  induction l with
  | nil => rfl
  | cons a t ih =>
      simp only [List.map_cons]
      rw [updateIncident_of_ne u a (hl a (List.mem_cons_self a t)),
        ih (fun i hi => hl i (List.mem_cons_of_mem a hi))]

lemma applyIncidentUpdate_of_absent (u : IncidentUpdateData) (st : PublicStatusData)
    (h : ∀ i ∈ st.incidents, i.id ≠ u.incident_id) : applyIncidentUpdate u st = st := by
  unfold applyIncidentUpdate
  rw [map_updateIncident_of_absent u st.incidents h]

/-- C4: the incident_update handler replaces exactly the status field and
the updates array of the incident whose id matches the event, leaves
every other field of that incident, every other incident, the services
and the organization unchanged, and is a no-op when no incident carries
the event id. -/
theorem incident_update_replaces_matching :
  ∀ (u : IncidentUpdateData) (st : PublicStatusData),
    (applyIncidentUpdate u st).organization = st.organization ∧
    (applyIncidentUpdate u st).services = st.services ∧
    (∀ k : Nat, (applyIncidentUpdate u st).incidents[k]?
        = (st.incidents[k]?).map (updateIncident u)) ∧
    (∀ i : Incident,
        (updateIncident u i).id = i.id ∧
        (updateIncident u i).title = i.title ∧
        (updateIncident u i).severity = i.severity ∧
        (updateIncident u i).organization_id = i.organization_id ∧
        (updateIncident u i).affected_services = i.affected_services ∧
        (updateIncident u i).created_at = i.created_at ∧
        (updateIncident u i).updated_at = i.updated_at ∧
        (updateIncident u i).resolved_at = i.resolved_at ∧
        (updateIncident u i).status
          = (if i.id = u.incident_id then u.status else i.status) ∧
        (updateIncident u i).updates
          = (if i.id = u.incident_id then u.updates else i.updates)) ∧
    ((∀ i ∈ st.incidents, i.id ≠ u.incident_id) → applyIncidentUpdate u st = st) := by
  intro u st
  refine ⟨rfl, rfl, ?_, ?_, applyIncidentUpdate_of_absent u st⟩
  · intro k
    simp [applyIncidentUpdate, List.getElem?_map]
  · intro i
    by_cases h : i.id = u.incident_id <;> simp [updateIncident, h]

lemma updateServiceStatus_idem (u : ServiceUpdateData) (s : Service) :
    updateServiceStatus u (updateServiceStatus u s) = updateServiceStatus u s := by
  by_cases h : s.id = u.service_id <;> simp [updateServiceStatus, h]

/-- C5: applying the same service_update event twice in succession yields
the same state as applying it once. -/
theorem service_update_idempotent :
  ∀ (u : ServiceUpdateData) (st : PublicStatusData),
    applyServiceUpdate u (applyServiceUpdate u st) = applyServiceUpdate u st := by
  intro u st
  unfold applyServiceUpdate
  simp only [List.map_map]
  congr 1
  apply List.map_congr_left
  intro s _
  exact updateServiceStatus_idem u s

/-- C2: the useWebSocket hook registers a listener for incident_deleted,
and the modelled consumer of that event removes exactly the incidents
whose id equals the event id: the resulting incidents list is a sublist
of the previous one (relative order kept), an incident remains in it iff
it was there before and its id differs from the event id, and services
and organization are untouched. -/
theorem incident_deleted_removes_matching :
  "incident_deleted" ∈ useWebSocketRegisteredEvents ∧
  ∀ (iid : String) (st : PublicStatusData),
    (applyIncidentDeleted iid st).organization = st.organization ∧
    (applyIncidentDeleted iid st).services = st.services ∧
    (applyIncidentDeleted iid st).incidents.Sublist st.incidents ∧
    (∀ inc : Incident,
        inc ∈ (applyIncidentDeleted iid st).incidents
          ↔ inc ∈ st.incidents ∧ inc.id ≠ iid) := by
  constructor
  · simp [useWebSocketRegisteredEvents]
  · intro iid st
    refine ⟨rfl, rfl, List.filter_sublist st.incidents, ?_⟩
    intro inc
    simp [applyIncidentDeleted, List.mem_filter]

/-- C6 counterexample: applying the same incident_new event twice to a
concrete state differs from applying it once, so the consumer is not
idempotent on incident_created. -/
theorem incident_new_twice_differs :
  applyIncidentNew ⟨sampleIncident⟩ (applyIncidentNew ⟨sampleIncident⟩ sampleState)
    ≠ applyIncidentNew ⟨sampleIncident⟩ sampleState := by
  decide

/-- C6 amended: the consumer does not treat incident_created as an
idempotent delta: applying the same incident_new event twice prepends
the incident twice, leaving a duplicate at the head and growing the list
by two. -/
theorem incident_new_duplicates_on_repeat :
  ∀ (n : NewIncidentData) (st : PublicStatusData),
    (applyIncidentNew n (applyIncidentNew n st)).incidents
      = n.incident :: n.incident :: st.incidents ∧
    (applyIncidentNew n (applyIncidentNew n st)).incidents.length
      = st.incidents.length + 2 := by
  intro n st
  refine ⟨rfl, ?_⟩
  simp [applyIncidentNew]

/-- C7: the consumer is a pure total function of the previous state and
the event; on the incident_deleted variant, for which the component
registers no handler, the state is unchanged; on payloads whose id is
absent from the local snapshot the update variants are safe no-ops; and
no variant ever touches the organization. -/
theorem consumer_total_and_defensive :
  (∀ (st : PublicStatusData) (iid : String),
      applyEvent (SocketEvent.incidentDeleted iid) st = st) ∧
  (∀ (u : ServiceUpdateData) (st : PublicStatusData),
      (∀ s ∈ st.services, s.id ≠ u.service_id) →
        applyEvent (SocketEvent.serviceUpdate u) st = st) ∧
  (∀ (u : IncidentUpdateData) (st : PublicStatusData),
      (∀ i ∈ st.incidents, i.id ≠ u.incident_id) →
        applyEvent (SocketEvent.incidentUpdate u) st = st) ∧
  (∀ (ev : SocketEvent) (st : PublicStatusData),
      (applyEvent ev st).organization = st.organization) := by
  refine ⟨fun st iid => rfl, ?_, ?_, ?_⟩
  · intro u st h
    exact applyServiceUpdate_of_absent u st h
  · intro u st h
    exact applyIncidentUpdate_of_absent u st h
  · intro ev st
    cases ev <;> rfl

/-- C8 counterexample: the PublicStatusPageClient entry point, upon
connect for the concrete organization slug acme, emits no join_room
message at all; it emits a single subscribe message carrying the slug. -/
theorem public_page_connect_emits_no_join_room :
  (publicStatusPageClientEmitsOnConnect "acme").filter
      (fun m => m.event == "join_room") = [] ∧
  publicStatusPageClientEmitsOnConnect "acme"
    = [⟨"subscribe", "organizationSlug", "acme"⟩] := by
  decide

/-- C8 amended: the useWebSocket entry point, upon transport connect with
a non-null organization identifier, sends exactly one join_room message
whose room field equals that identifier, and sends nothing when the
identifier is null; the PublicStatusPageClient entry point instead sends
exactly one subscribe message carrying the organization slug. -/
theorem join_room_emitted_once_on_connect :
  (∀ oid : String,
      useWebSocketEmitsOnConnect (some oid) = [⟨"join_room", "room", oid⟩]) ∧
  useWebSocketEmitsOnConnect none = [] ∧
  (∀ slug : String,
      publicStatusPageClientEmitsOnConnect slug
        = [⟨"subscribe", "organizationSlug", slug⟩]) := by
  exact ⟨fun oid => rfl, rfl, fun slug => rfl⟩

/-- C9: the retry budget the hook passes to the transport is 5, the
modelled back-off doubles after every failure, a step never raises the
remaining budget above that bound, a failed retry strictly consumes
budget (so only finitely many attempts can follow a loss), any step that
exhausts the budget surfaces isConnected = false, and from an exhausted
disconnected state no further step exists: the state stays disconnected
along every continuation of the run. -/
theorem reconnection_bounded_and_stays_disconnected :
  reconnectionAttempts = 5 ∧
  (∀ k : Nat, backoffDelay (k + 1) = 2 * backoffDelay k ∧ 0 < backoffDelay k) ∧
  (∀ c c' : ClientConn, ConnStep c c' →
      c.attemptsLeft ≤ reconnectionAttempts → c'.attemptsLeft ≤ reconnectionAttempts) ∧
  (∀ c c' : ClientConn, ConnStep c c' →
      c.isConnected = false → c'.isConnected = false →
        c'.attemptsLeft < c.attemptsLeft) ∧
  (∀ c c' : ClientConn, ConnStep c c' →
      c'.gaveUp = true → c'.isConnected = false) ∧
  (∀ c c' : ClientConn, c.gaveUp = true → c.isConnected = false →
      Relation.ReflTransGen ConnStep c c' → c' = c) := by
  refine ⟨rfl, ?_, ?_, ?_, ?_, ?_⟩
  · intro k
    constructor
    · simp only [backoffDelay, pow_succ]
      ring
    · simp only [backoffDelay]
      positivity
  · intro c c' h hle
    cases h with
    | transportLoss h => simp
    | retrySuccess h1 h2 h3 => simp
    | retryFailure h1 h2 h3 => exact Nat.le_trans (Nat.sub_le _ _) hle
  · intro c c' h hc hc'
    cases h with
    | transportLoss h => rw [h] at hc; cases hc
    | retrySuccess h1 h2 h3 => cases hc'
    | retryFailure h1 h2 h3 => exact Nat.sub_lt h3 Nat.one_pos
  · intro c c' h hg
    cases h with
    | transportLoss h => cases hg
    | retrySuccess h1 h2 h3 => cases hg
    | retryFailure h1 h2 h3 => rfl
  · intro c c' hg hc hstar
    rcases Relation.ReflTransGen.cases_head hstar with heq | ⟨b, hstep, _⟩
    · exact heq.symm
    · cases hstep with
      | transportLoss h => rw [h] at hc; cases hc
      | retrySuccess h1 h2 h3 => rw [h2] at hg; cases hg
      | retryFailure h1 h2 h3 => rw [h2] at hg; cases hg

/-- C10: the status badge lookup of the poll-only public page is total
with a fallback: any status string other than the five exact keys of
statusStyles gets the gray Unknown badge; in particular every
display-string value of the ServiceStatus enum used elsewhere in the
system, such as Operational and Major Outage, falls through to
Unknown. -/
theorem status_badge_lookup_falls_back_to_unknown :
  (∀ s : String,
      s ∉ ["OPERATIONAL", "DEGRADED_PERFORMANCE", "PARTIAL_OUTAGE",
           "MAJOR_OUTAGE", "MAINTENANCE"] →
        lookupStatusStyle s = unknownStatusStyle) ∧
  lookupStatusStyle "Operational" = unknownStatusStyle ∧
  lookupStatusStyle "Major Outage" = unknownStatusStyle ∧
  (∀ sv : ServiceStatus, lookupStatusStyle sv.display = unknownStatusStyle) ∧
  unknownStatusStyle.color = "bg-gray-500" ∧
  unknownStatusStyle.text = "Unknown" := by
  refine ⟨?_, by decide, by decide, ?_, rfl, rfl⟩
  · intro s h
    simp only [List.mem_cons, List.not_mem_nil, or_false, not_or] at h
    obtain ⟨h1, h2, h3, h4, h5⟩ := h
    have e1 : (s == "OPERATIONAL") = false := beq_eq_false_iff_ne.mpr h1
    have e2 : (s == "DEGRADED_PERFORMANCE") = false := beq_eq_false_iff_ne.mpr h2
    have e3 : (s == "PARTIAL_OUTAGE") = false := beq_eq_false_iff_ne.mpr h3
    have e4 : (s == "MAJOR_OUTAGE") = false := beq_eq_false_iff_ne.mpr h4
    have e5 : (s == "MAINTENANCE") = false := beq_eq_false_iff_ne.mpr h5
    simp [lookupStatusStyle, statusStyles, List.lookup, e1, e2, e3, e4, e5]
  · intro sv
    cases sv <;> decide

end StatusTrack
